import Mathlib

/-!
Verification of the tick-window / indicator / signal-detection core of the
`binan` repository (`data_processor.py`, `config.py`).

Prices, volumes and indicator values are modelled as rationals; timestamps as
integers (epoch milliseconds, as in the source).  Pandas/ta columns that can be
NaN during warm-up are modelled as `Option` values, and `df.dropna()` is the
filter keeping rows in which every such column is defined.  Code paths on which
the Python implementation raises an exception (the ta ADXIndicator on short
inputs, and the scalar `.shift(1)` access in `detect_exit_signal`) are modelled
with `Except`, `Except.error ()` standing for a raised exception.
-/

set_option maxRecDepth 100000
set_option maxHeartbeats 4000000

/- Batteries marks the `Rat` field operations irreducible, which blocks
elaborator-level evaluation of decidable propositions about concrete
rationals; restoring the default reducibility lets `decide` evaluate the
embedded indicator arithmetic.  Kernel checking is unaffected. -/
set_option allowUnsafeReducibility true

attribute [semireducible] Rat.add Rat.mul Rat.sub Rat.inv Rat.div

deriving instance DecidableEq for Except

namespace Binan

/-- Alert/indicator configuration constants from `config.py`. -/
def TIME_INTERVAL_MINUTES : Nat := 3

def PRICE_CHANGE_THRESHOLD : ℚ := 3

def RSI_PERIOD : Nat := 14

def MACD_FAST : Nat := 12

def MACD_SLOW : Nat := 26

def MACD_SIGNAL : Nat := 9

def BOLLINGER_PERIOD : Nat := 20

def EMA_50_PERIOD : Nat := 50

def EMA_200_PERIOD : Nat := 200

def ADX_PERIOD : Nat := 14

def ADX_THRESHOLD : ℚ := 25

def STOCH_RSI_PERIOD : Nat := 14

def STOCH_RSI_K : Nat := 3

/-- A ticker record as consumed by `DataProcessor.update_data`. -/
structure Tick where
  symbol : String
  price : ℚ
  volume : ℚ
  timestamp : Int
  deriving DecidableEq, Inhabited

/-- The mutable state of a `DataProcessor` instance: the per-symbol tick
windows (`self.symbol_data`) and the per-symbol throttle clock
(`self.last_processed`), modelled as association lists. -/
structure PState where
  symbol_data : List (String × List Tick)
  last_processed : List (String × Int)
  deriving DecidableEq, Inhabited

/-- Association-list lookup (Python dict read). -/
def lookupA {α : Type} : List (String × α) → String → Option α
  | [], _ => none
  | (k, v) :: rest, s => if k = s then some v else lookupA rest s

/-- Association-list update (Python dict write). -/
def insertA {α : Type} : List (String × α) → String → α → List (String × α)
  | [], s, v => [(s, v)]
  | (k, w) :: rest, s, v =>
      if k = s then (s, v) :: rest else (k, w) :: insertA rest s v

/-- `DataProcessor.update_data` (lines 30-46): initialise an unseen symbol
(empty window, `last_processed = 0`), append the tick, then prune every tick
with `timestamp <= now - 3h`, `now` being the wall-clock time of the append
(passed explicitly here). -/
def update_data (st : PState) (tk : Tick) (now : Int) : PState :=
  let seen := (lookupA st.symbol_data tk.symbol).isSome
  let sd0 := if seen then st.symbol_data else insertA st.symbol_data tk.symbol []
  let lp0 := if seen then st.last_processed else insertA st.last_processed tk.symbol 0
  let win := ((lookupA sd0 tk.symbol).getD []) ++ [tk]
  let pruned := win.filter (fun d => decide (now - 3 * 60 * 60 * 1000 < d.timestamp))
  { symbol_data := insertA sd0 tk.symbol pruned, last_processed := lp0 }

/-- Stable insertion of a tick into a timestamp-sorted list: the new tick is
placed before the first element whose timestamp is not smaller, so elements
that come earlier in the original list stay first among equal timestamps
(the behaviour of the stable `df.sort_values` in pandas). -/
def insSorted (t : Tick) : List Tick → List Tick
  | [] => [t]
  | x :: xs => if x.timestamp < t.timestamp then x :: insSorted t xs else t :: x :: xs

/-- Stable sort by timestamp, modelling `df.sort_values('timestamp')`. -/
def sortTicks : List Tick → List Tick
  | [] => []
  | x :: xs => insSorted x (sortTicks xs)

/-- Drops later members of each run of equal timestamps, keeping the first. -/
def dedupFrom (x : Tick) : List Tick → List Tick
  | [] => []
  | y :: ys => if x.timestamp = y.timestamp then dedupFrom x ys else y :: dedupFrom y ys

/-- `df.drop_duplicates(subset='timestamp')` on a sorted window: keep the first
row of every timestamp. -/
def dedupByTs : List Tick → List Tick
  | [] => []
  | x :: xs => x :: dedupFrom x xs

/-- Indexing into a price/volume column (rows are never read out of range by
the source, so the default is irrelevant). -/
def pr (l : List ℚ) (i : Nat) : ℚ := l.getD i 0

/-- Exponential moving average with smoothing factor `a`, the
`ewm(span=..., adjust=False).mean()` recurrence of pandas started at row 0. -/
def emaRec (a : ℚ) (l : List ℚ) : Nat → ℚ
  | 0 => pr l 0
  | n + 1 => a * pr l (n + 1) + (1 - a) * emaRec a l n

/-- The positive part of the one-row price difference (`ta` RSI `up_direction`;
row 0, where `diff` is NaN, is replaced by 0 as `diff.where` does). -/
def upMove (l : List ℚ) (i : Nat) : ℚ :=
  if i = 0 then 0 else max (pr l i - pr l (i - 1)) 0

/-- The negative part of the one-row price difference (`ta` RSI
`down_direction`). -/
def downMove (l : List ℚ) (i : Nat) : ℚ :=
  if i = 0 then 0 else max (pr l (i - 1) - pr l i) 0

/-- Wilder smoothing (`ewm(alpha=1/window, adjust=False)`) of a row series. -/
def wilder (a : ℚ) (f : Nat → ℚ) : Nat → ℚ
  | 0 => f 0
  | n + 1 => a * f (n + 1) + (1 - a) * wilder a f n

/-- RSI value at a row, following `ta.momentum.RSIIndicator`: smoothed gains
over smoothed losses, with the library's explicit `where(emadn == 0, 100, ...)`
branch. -/
def rsiVal (l : List ℚ) (i : Nat) : ℚ :=
  let u := wilder (1 / 14) (upMove l) i
  let d := wilder (1 / 14) (downMove l) i
  if d = 0 then 100 else 100 - 100 / (1 + u / d)

/-- RSI column: NaN (none) during the `min_periods = 14` warm-up, which masks
rows 0..12. -/
def rsiCol (l : List ℚ) (i : Nat) : Option ℚ :=
  if i < RSI_PERIOD - 1 then none else some (rsiVal l i)

/-- MACD line value: fast EMA minus slow EMA (spans 12 and 26). -/
def macdVal (l : List ℚ) (i : Nat) : ℚ :=
  emaRec (2 / 13) l i - emaRec (2 / 27) l i

/-- MACD column: masked by `min_periods = 26` until row 25. -/
def macdCol (l : List ℚ) (i : Nat) : Option ℚ :=
  if i < MACD_SLOW - 1 then none else some (macdVal l i)

/-- Signal-line EMA (span 9) of the MACD line; the MACD line is NaN before row
25, so the pandas `ewm` recurrence starts at row 25.  Argument `k` is the
offset from row 25. -/
def macdSigRec (l : List ℚ) : Nat → ℚ
  | 0 => macdVal l (MACD_SLOW - 1)
  | k + 1 => (1 / 5) * macdVal l (MACD_SLOW - 1 + (k + 1)) + (4 / 5) * macdSigRec l k

/-- MACD signal column: nine non-NaN MACD observations are required, so the
first defined row is 33. -/
def macdSignalCol (l : List ℚ) (i : Nat) : Option ℚ :=
  if i < MACD_SLOW + MACD_SIGNAL - 2 then none
  else some (macdSigRec l (i - (MACD_SLOW - 1)))

/-- MACD histogram column (`macd_diff = macd - macd_signal`). -/
def macdDiffCol (l : List ℚ) (i : Nat) : Option ℚ :=
  if i < MACD_SLOW + MACD_SIGNAL - 2 then none
  else some (macdVal l i - macdSigRec l (i - (MACD_SLOW - 1)))

/-- The trailing window of `k` rows ending at row `i` (rows `i+1-k .. i`). -/
def windowSlice (l : List ℚ) (i k : Nat) : List ℚ :=
  (l.take (i + 1)).drop (i + 1 - k)

/-- Mean of a column slice. -/
def sliceMean (xs : List ℚ) : ℚ := xs.sum / (xs.length : ℚ)

/-- Bollinger middle band: rolling mean over 20 rows, masked until row 19.
The upper and lower bands are this mean plus/minus a multiple of the rolling
standard deviation; the standard deviation is irrational in general and its
value is read by none of the verified claims, while its NaN pattern is exactly
that of the rolling mean (a variance is never negative, so the square root
never introduces NaN).  The band columns are therefore not carried in the row
model: they remove no additional rows in `dropna`. -/
def bbMiddleCol (l : List ℚ) (i : Nat) : Option ℚ :=
  if i < BOLLINGER_PERIOD - 1 then none
  else some (sliceMean (windowSlice l i BOLLINGER_PERIOD))

/-- Cumulative price*volume, `(df['price'] * df['volume']).cumsum()`. -/
def cumPV (p v : List ℚ) (i : Nat) : ℚ :=
  ((List.range (i + 1)).map (fun j => pr p j * pr v j)).sum

/-- Cumulative volume, `df['volume'].cumsum()`. -/
def cumV (v : List ℚ) (i : Nat) : ℚ :=
  ((List.range (i + 1)).map (pr v)).sum

/-- VWAP column (line 87): cumulative price*volume over cumulative volume
since window start.  With the non-negative volumes of the data model, a zero
cumulative volume forces a zero numerator, where pandas produces NaN (0/0);
that row is then excluded by `dropna`. -/
def vwapCol (p v : List ℚ) (i : Nat) : Option ℚ :=
  if cumV v i = 0 then none else some (cumPV p v i / cumV v i)

/-- Percentage price change with lag `TIME_INTERVAL_MINUTES` (line 90),
`pct_change(periods=3) * 100`; NaN on the first three rows. -/
def pctChangeCol (l : List ℚ) (i : Nat) : Option ℚ :=
  if i < TIME_INTERVAL_MINUTES then none
  else some ((pr l i - pr l (i - TIME_INTERVAL_MINUTES)) / pr l (i - TIME_INTERVAL_MINUTES) * 100)

/-- The EMA crossover sign of lines 97-99: the column is initialised to 0,
then set to 1 where `ema_50 > ema_200` and to -1 where `ema_50 < ema_200`,
so exact equality leaves the initial 0 in place. -/
def crossoverSign (e50 e200 : ℚ) : Int :=
  if e200 < e50 then 1 else if e50 < e200 then -1 else 0

/-- Maximum of a price slice (the slices used are never empty). -/
def listMax : List ℚ → ℚ
  | [] => 0
  | x :: xs => xs.foldl max x

/-- Minimum of a price slice. -/
def listMin : List ℚ → ℚ
  | [] => 0
  | x :: xs => xs.foldl min x

/-- Stochastic oscillator %K (`ta.momentum.StochasticOscillator.stoch`), with
price serving as high, low and close (lines 113-120): `100 * (close - min) /
(max - min)` over a 14-row window; NaN during warm-up and where the window
range is zero (a 0/0 in pandas). -/
def stochKCol (l : List ℚ) (i : Nat) : Option ℚ :=
  if i < STOCH_RSI_PERIOD - 1 then none
  else
    let mx := listMax (windowSlice l i STOCH_RSI_PERIOD)
    let mn := listMin (windowSlice l i STOCH_RSI_PERIOD)
    if mx = mn then none else some (100 * (pr l i - mn) / (mx - mn))

/-- Stochastic %D (`stoch_signal`): 3-row rolling mean of %K, NaN unless the
last three %K values are all defined. -/
def stochDCol (l : List ℚ) (i : Nat) : Option ℚ :=
  if i < 2 then none
  else
    match stochKCol l i, stochKCol l (i - 1), stochKCol l (i - 2) with
    | some a, some b, some c => some ((a + b + c) / 3)
    | _, _, _ => none

/-- True range with price as high = low = close (`ta.trend.ADXIndicator`):
row 0 is NaN in the library and contributes nothing. -/
def trVal (l : List ℚ) (j : Nat) : ℚ :=
  if j = 0 then 0 else max (pr l j) (pr l (j - 1)) - min (pr l j) (pr l (j - 1))

/-- Positive directional movement. -/
def posDM (l : List ℚ) (j : Nat) : ℚ :=
  if j = 0 then 0 else max (pr l j - pr l (j - 1)) 0

/-- Negative directional movement. -/
def negDM (l : List ℚ) (j : Nat) : ℚ :=
  if j = 0 then 0 else max (pr l (j - 1) - pr l j) 0

/-- Wilder-style running sum used by the ADX indicator for the true range and
the directional movements: seeded with the sum of the first 14 valid rows,
then `s - s/14 + next`. -/
def adxRun (f : Nat → ℚ) : Nat → ℚ
  | 0 => ((List.range 14).map (fun j => f (j + 1))).sum
  | i + 1 => adxRun f i - adxRun f i / 14 + f (14 + (i + 1))

/-- Directional index DX at smoothed position `i` (modelled from
`ta.trend.ADXIndicator.adx`; the library pads its warm-up region with zeros,
not NaN, so these columns never remove rows in `dropna`; a zero denominator,
NaN in numpy, is modelled as 0 and is never exercised by the claims). -/
def dxVal (l : List ℚ) (i : Nat) : ℚ :=
  let tr := adxRun (trVal l) i
  if tr = 0 then 0
  else
    let dp := 100 * adxRun (posDM l) i / tr
    let dn := 100 * adxRun (negDM l) i / tr
    if dp + dn = 0 then 0 else 100 * |dp - dn| / (dp + dn)

/-- ADX smoothing over DX (warm-up positions are the library's zero padding). -/
def adxRaw (l : List ℚ) : Nat → ℚ
  | 0 => 0
  | k + 1 =>
      if k + 1 < 14 then 0
      else if k + 1 = 14 then (((List.range 14).map (dxVal l)).sum) / 14
      else (adxRaw l k * 13 + dxVal l (k + 1)) / 14

/-- ADX column at a data row (zero padding before the smoothed region). -/
def adxCol (l : List ℚ) (i : Nat) : ℚ :=
  if i < 13 then 0 else adxRaw l (i - 13)

/-- +DI column (`adx_pos`), zero padded as in the library. -/
def adxPosCol (l : List ℚ) (i : Nat) : ℚ :=
  if i < 15 then 0
  else
    let tr := adxRun (trVal l) (i - 14)
    if tr = 0 then 0 else 100 * adxRun (posDM l) (i - 14) / tr

/-- -DI column (`adx_neg`). -/
def adxNegCol (l : List ℚ) (i : Nat) : ℚ :=
  if i < 15 then 0
  else
    let tr := adxRun (trVal l) (i - 14)
    if tr = 0 then 0 else 100 * adxRun (negDM l) (i - 14) / tr

/-- A row of the indicator DataFrame before `dropna`: columns that pandas can
hold as NaN are `Option` valued. -/
structure RawRow where
  symbol : String
  price : ℚ
  volume : ℚ
  timestamp : Int
  rsi : Option ℚ
  macd : Option ℚ
  macd_signal : Option ℚ
  macd_diff : Option ℚ
  bb_middle : Option ℚ
  vwap : Option ℚ
  price_pct_change : Option ℚ
  ema_50 : ℚ
  ema_200 : ℚ
  ema_crossover : Int
  adx : ℚ
  adx_pos : ℚ
  adx_neg : ℚ
  stoch_k : Option ℚ
  stoch_d : Option ℚ
  deriving DecidableEq, Inhabited

/-- A row surviving `dropna`: every indicator is defined. -/
structure Row where
  symbol : String
  price : ℚ
  volume : ℚ
  timestamp : Int
  rsi : ℚ
  macd : ℚ
  macd_signal : ℚ
  macd_diff : ℚ
  bb_middle : ℚ
  vwap : ℚ
  price_pct_change : ℚ
  ema_50 : ℚ
  ema_200 : ℚ
  ema_crossover : Int
  adx : ℚ
  adx_pos : ℚ
  adx_neg : ℚ
  stoch_k : ℚ
  stoch_d : ℚ
  deriving DecidableEq, Inhabited

/-- Row `i` of the indicator frame over the sorted, deduplicated window `u`
(lines 53-121 of `data_processor.py`). -/
def mkRaw (u : List Tick) (i : Nat) : RawRow :=
  let p := u.map Tick.price
  let v := u.map Tick.volume
  let tk := u.getD i default
  { symbol := tk.symbol
    price := pr p i
    volume := pr v i
    timestamp := tk.timestamp
    rsi := rsiCol p i
    macd := macdCol p i
    macd_signal := macdSignalCol p i
    macd_diff := macdDiffCol p i
    bb_middle := bbMiddleCol p i
    vwap := vwapCol p v i
    price_pct_change := pctChangeCol p i
    ema_50 := emaRec (2 / 51) p i
    ema_200 := emaRec (2 / 201) p i
    ema_crossover := crossoverSign (emaRec (2 / 51) p i) (emaRec (2 / 201) p i)
    adx := adxCol p i
    adx_pos := adxPosCol p i
    adx_neg := adxNegCol p i
    stoch_k := stochKCol p i
    stoch_d := stochDCol p i }

/-- The `dropna` step for one row: keep it only if every NaN-able column is
defined. -/
def toRow (r : RawRow) : Option Row :=
  if h : r.rsi.isSome ∧ r.macd.isSome ∧ r.macd_signal.isSome ∧ r.macd_diff.isSome ∧
      r.bb_middle.isSome ∧ r.vwap.isSome ∧ r.price_pct_change.isSome ∧
      r.stoch_k.isSome ∧ r.stoch_d.isSome then
    some
      { symbol := r.symbol
        price := r.price
        volume := r.volume
        timestamp := r.timestamp
        rsi := r.rsi.get h.1
        macd := r.macd.get h.2.1
        macd_signal := r.macd_signal.get h.2.2.1
        macd_diff := r.macd_diff.get h.2.2.2.1
        bb_middle := r.bb_middle.get h.2.2.2.2.1
        vwap := r.vwap.get h.2.2.2.2.2.1
        price_pct_change := r.price_pct_change.get h.2.2.2.2.2.2.1
        ema_50 := r.ema_50
        ema_200 := r.ema_200
        ema_crossover := r.ema_crossover
        adx := r.adx
        adx_pos := r.adx_pos
        adx_neg := r.adx_neg
        stoch_k := r.stoch_k.get h.2.2.2.2.2.2.2.1
        stoch_d := r.stoch_d.get h.2.2.2.2.2.2.2.2 }
  else none

/-- The indicator frame of a sorted, deduplicated window: all rows, then
`dropna` (line 124). -/
def frameOf (u : List Tick) : List Row :=
  (List.range u.length).filterMap (fun i => toRow (mkRaw u i))

/-- Outcome of `calculate_indicators`: the Python `None`, a raised library
exception, or a returned frame (possibly empty). -/
inductive CalcResult where
  | noData : CalcResult
  | libErr : CalcResult
  | frame : List Row → CalcResult
  deriving DecidableEq

/-- The ta `ADXIndicator` sizes its smoothing arrays from the input length and
indexes the entry at `window` into them, so it raises (`ValueError` or
`IndexError`) when the deduplicated window is shorter than about twice the
ADX period; no claim exercises lengths in the failing region other than
through this error case. -/
def ADX_LIB_MIN : Nat := 2 * ADX_PERIOD

/-- `DataProcessor.calculate_indicators` (lines 48-126).  The `< 30` guard of
line 49 is applied to the raw per-symbol list, before sorting and
deduplication. -/
def calculate_indicators (st : PState) (symbol : String) : CalcResult :=
  match lookupA st.symbol_data symbol with
  | none => CalcResult.noData
  | some w =>
      if w.length < 30 then CalcResult.noData
      else
        let u := dedupByTs (sortTicks w)
        if u.length < ADX_LIB_MIN then CalcResult.libErr
        else CalcResult.frame (frameOf u)

/-- The rows returned by `calculate_indicators`, empty on `None`/error (a
convenience accessor for stating concrete facts about frames). -/
def frameRowsOf (st : PState) (symbol : String) : List Row :=
  match calculate_indicators st symbol with
  | CalcResult.frame rows => rows
  | _ => []

/-- An entry signal as built at lines 170-195. -/
structure Signal where
  symbol : String
  trend : String
  price : ℚ
  price_change : ℚ
  rsi : ℚ
  macd_diff : ℚ
  adx : ℚ
  ema_crossover : Int
  stoch_k : ℚ
  timestamp : Int
  deriving DecidableEq, Inhabited

/-- The pump (LONG) predicate of lines 145-152 on the latest row. -/
def pump_signal (r : Row) : Bool :=
  decide (PRICE_CHANGE_THRESHOLD < r.price_pct_change) && decide ((50 : ℚ) < r.rsi) &&
    decide ((0 : ℚ) < r.macd_diff) && decide (r.vwap < r.price) &&
    decide ((0 : Int) ≤ r.ema_crossover) && decide (ADX_THRESHOLD < r.adx)

/-- The dump (SHORT) predicate of lines 157-164. -/
def dump_signal (r : Row) : Bool :=
  decide (r.price_pct_change < -PRICE_CHANGE_THRESHOLD) && decide (r.rsi < (50 : ℚ)) &&
    decide (r.macd_diff < (0 : ℚ)) && decide (r.price < r.vwap) &&
    decide (r.ema_crossover ≤ (0 : Int)) && decide (ADX_THRESHOLD < r.adx)

/-- `DataProcessor.detect_trend` (lines 128-197): indicator computation, data
sufficiency check, throttle gate, predicate evaluation on the latest row, and
the `last_processed` update of line 168.  The returned pair carries the
resulting processor state; `Except.error` models an exception escaping from
`calculate_indicators`. -/
def detect_trend (st : PState) (symbol : String) (now : Int) :
    Except Unit (Option Signal × PState) :=
  match calculate_indicators st symbol with
  | CalcResult.libErr => Except.error ()
  | CalcResult.noData => Except.ok (none, st)
  | CalcResult.frame rows =>
      if rows.length < TIME_INTERVAL_MINUTES then Except.ok (none, st)
      else
        let last_processed_time := (lookupA st.last_processed symbol).getD 0
        if now - last_processed_time < (TIME_INTERVAL_MINUTES : Int) * 60 * 1000 then
          Except.ok (none, st)
        else
          let latest := rows.getLastD default
          let st2 : PState :=
            { st with last_processed := insertA st.last_processed symbol now }
          if pump_signal latest then
            Except.ok (some
              { symbol := symbol, trend := "LONG", price := latest.price,
                price_change := latest.price_pct_change, rsi := latest.rsi,
                macd_diff := latest.macd_diff, adx := latest.adx,
                ema_crossover := latest.ema_crossover, stoch_k := latest.stoch_k,
                timestamp := now }, st2)
          else if dump_signal latest then
            Except.ok (some
              { symbol := symbol, trend := "SHORT", price := latest.price,
                price_change := latest.price_pct_change, rsi := latest.rsi,
                macd_diff := latest.macd_diff, adx := latest.adx,
                ema_crossover := latest.ema_crossover, stoch_k := latest.stoch_k,
                timestamp := now }, st2)
          else Except.ok (none, st2)

/-- An open position as read by `detect_exit_signal`; a `none` timestamp
models a dict without the `'timestamp'` key. -/
structure Position where
  symbol : String
  trend : String
  entry_price : ℚ
  timestamp : Option Int
  deriving DecidableEq, Inhabited

/-- An exit signal as built at lines 238-244 / 260-266. -/
structure ExitSig where
  symbol : String
  exit_price : ℚ
  profit_pct : ℚ
  reason : String
  timestamp : Int
  deriving DecidableEq, Inhabited

/-- The first three LONG exit disjuncts (lines 230-234); Python's `or`
evaluates them before the crossover check of line 236. -/
def longExitCond (r : Row) : Bool :=
  (decide (r.macd_diff < -(2 / 10000 : ℚ)) && decide (r.rsi < (40 : ℚ))) ||
    (decide ((75 : ℚ) < r.rsi) && decide ((80 : ℚ) < r.stoch_k)) ||
    decide (r.price < r.vwap * (99 / 100))

/-- The first three SHORT exit disjuncts (lines 252-256). -/
def shortExitCond (r : Row) : Bool :=
  (decide ((2 / 10000 : ℚ) < r.macd_diff) && decide ((60 : ℚ) < r.rsi)) ||
    (decide (r.rsi < (25 : ℚ)) && decide (r.stoch_k < (20 : ℚ))) ||
    decide (r.vwap * (101 / 100) < r.price)

/-- Lines 215-268 of `detect_exit_signal`, after the holding-period gate.
The fourth disjunct of each exit condition reads
`latest['ema_crossover'].shift(1)`: `latest['ema_crossover']` is a scalar, so
as soon as its first conjunct (`== -1` for LONG, `== 1` for SHORT) is true,
the attribute access raises `AttributeError`; with the first conjunct false
the short-circuiting `and` never evaluates it. -/
def exitEval (st : PState) (position : Position) (now : Int) :
    Except Unit (Option ExitSig) :=
  match calculate_indicators st position.symbol with
  | CalcResult.libErr => Except.error ()
  | CalcResult.noData => Except.ok none
  | CalcResult.frame rows =>
      if rows.length < 5 then Except.ok none
      else
        let latest := rows.getLastD default
        let current_price := latest.price
        if position.trend = "LONG" then
          let profit_pct := (current_price - position.entry_price) / position.entry_price * 100
          if longExitCond latest then
            Except.ok (some
              { symbol := position.symbol, exit_price := current_price,
                profit_pct := profit_pct, reason := "Trend reversal detected",
                timestamp := now })
          else if latest.ema_crossover = -1 then Except.error ()
          else Except.ok none
        else if position.trend = "SHORT" then
          let profit_pct := (position.entry_price - current_price) / position.entry_price * 100
          if shortExitCond latest then
            Except.ok (some
              { symbol := position.symbol, exit_price := current_price,
                profit_pct := profit_pct, reason := "Trend reversal detected",
                timestamp := now })
          else if latest.ema_crossover = 1 then Except.error ()
          else Except.ok none
        else Except.ok none

/-- `DataProcessor.detect_exit_signal` (lines 199-268): when the position
carries a `'timestamp'` key, a holding period of at least 15 minutes is
enforced before any evaluation (lines 208-213); without the key the gate is
skipped. -/
def detect_exit_signal (st : PState) (position : Position) (now : Int) :
    Except Unit (Option ExitSig) :=
  match position.timestamp with
  | some entry_time =>
      if now - entry_time < 15 * 60 * 1000 then Except.ok none
      else exitEval st position now
  | none => exitEval st position now

/-- `DataProcessor.get_market_data` (lines 270-282): the most recent `period`
frame rows, with the raw-count guard applied before the indicator
computation. -/
def get_market_data (st : PState) (symbol : String) (period : Nat) :
    Except Unit (Option (List Row)) :=
  match lookupA st.symbol_data symbol with
  | none => Except.ok none
  | some w =>
      if w.length < period then Except.ok none
      else
        match calculate_indicators st symbol with
        | CalcResult.libErr => Except.error ()
        | CalcResult.noData => Except.ok none
        | CalcResult.frame rows => Except.ok (some (rows.drop (rows.length - period)))

/-! Concrete windows and processor states used by the counterexamples and
witnesses.  `altPrice` alternates 100/101 so that every trailing stochastic
window has a nonzero range and the RSI stays near 50. -/

/-- Alternating synthetic price series. -/
def altPrice (i : Nat) : ℚ := if i % 2 = 0 then 101 else 100

/-- A tick for symbol "X" with unit volume. -/
def tickAt (p : ℚ) (t : Int) : Tick :=
  { symbol := "X", price := p, volume := 1, timestamp := t }

/-- Window of `n` alternating ticks with timestamps 0, 1, ... -/
def wBase (n : Nat) : List Tick := (List.range n).map (fun i => tickAt (altPrice i) i)

/-- A processor with no history. -/
def stEmpty : PState := { symbol_data := [], last_processed := [] }

/-- Thirty ticks of which two share timestamp 28: the raw count is 30 but
only 29 distinct timestamps survive deduplication. -/
def wC1 : List Tick := wBase 29 ++ [tickAt 55 28]

/-- Processor holding `wC1` for symbol "X". -/
def stC1 : PState := { symbol_data := [("X", wC1)], last_processed := [("X", 0)] }

/-- The first 33 prices of the crossover-equality window. -/
def pBase33 : List ℚ := (List.range 33).map altPrice

/-- The unique price making the 50-row and 200-row EMAs exactly equal at row
33 of `wC3`, obtained by solving the EMA recurrences for the last price. -/
def p33C3 : ℚ :=
  ((1 - 2 / 201) * emaRec (2 / 201) pBase33 32 - (1 - 2 / 51) * emaRec (2 / 51) pBase33 32) /
    (2 / 51 - 2 / 201)

/-- A 34-tick window whose single surviving indicator row has
`ema_50 = ema_200` exactly. -/
def wC3 : List Tick :=
  (List.range 34).map (fun i => tickAt (if i = 33 then p33C3 else altPrice i) i)

/-- Processor holding `wC3`. -/
def stC3 : PState := { symbol_data := [("X", wC3)], last_processed := [("X", 0)] }

/-- The first 36 prices of the crossover-flip window. -/
def pB36 : List ℚ := (List.range 36).map altPrice

/-- A price putting the 50-row EMA exactly 1/1000 above the 200-row EMA at
row 36, so that the crossover sign is +1 there and the small drop to 100 at
row 37 flips it to -1. -/
def p36C2 : ℚ :=
  ((1 - 2 / 201) * emaRec (2 / 201) pB36 35 - (1 - 2 / 51) * emaRec (2 / 51) pB36 35 + 1 / 1000) /
    (2 / 51 - 2 / 201)

/-- A 38-tick window whose frame has five rows, with crossover sign +1 at the
second-to-last row and -1 at the last row, while the three evaluable LONG
exit disjuncts are all false at the last row. -/
def wC2 : List Tick :=
  (List.range 38).map (fun i =>
    tickAt (if i = 36 then p36C2 else if i = 37 then 100 else altPrice i) i)

/-- Processor holding `wC2`. -/
def stC2 : PState := { symbol_data := [("X", wC2)], last_processed := [("X", 0)] }

/-- A LONG position opened at time 0 on symbol "X". -/
def posC2 : Position := { symbol := "X", trend := "LONG", entry_price := 100, timestamp := some 0 }

/-- State after the first twenty ticks of a 36-tick feed have been appended:
the window is too short for indicator computation, and `last_processed` holds
the initial 0. -/
def stC4a : PState :=
  ((wBase 36).take 20).foldl (fun st tk => update_data st tk tk.timestamp) stEmpty

/-- State after the remaining sixteen ticks have been appended: 36 ticks, a
three-row indicator frame. -/
def stC4b : PState :=
  ((wBase 36).drop 20).foldl (fun st tk => update_data st tk tk.timestamp) stC4a

/-- Wall-clock time of the first `detect_trend` call. -/
def t1C4 : Int := 1000000000

/-- Wall-clock time of the second call, one second after the first. -/
def t2C4 : Int := 1000001000

/-- Forty ticks, the last one a crash from the 100/101 band down to 60, which
puts the last price far below 99 percent of the running VWAP. -/
def wC7 : List Tick :=
  (List.range 40).map (fun i => tickAt (if i = 39 then 60 else altPrice i) i)

/-- Processor holding `wC7`. -/
def stC7 : PState := { symbol_data := [("X", wC7)], last_processed := [("X", 0)] }

/-- A LONG position entered at price 80 at time 0. -/
def posC7 : Position := { symbol := "X", trend := "LONG", entry_price := 80, timestamp := some 0 }

/-- Evaluation time for the `wC7` exit, far beyond the holding period. -/
def nowC7 : Int := 1000000000

/-- The exit signal emitted on `wC7`: exit at 60 entered at 80 is -25 percent
for a LONG position. -/
def sigC7 : ExitSig :=
  { symbol := "X", exit_price := 60, profit_pct := -25, reason := "Trend reversal detected",
    timestamp := nowC7 }

/-- The same position without a stored entry timestamp. -/
def pos10 : Position := { symbol := "X", trend := "LONG", entry_price := 80, timestamp := none }

/-- The signal emitted for `pos10` at time 777: identical except for the
timestamp, although the position was never held for 15 minutes. -/
def sig10 : ExitSig :=
  { symbol := "X", exit_price := 60, profit_pct := -25, reason := "Trend reversal detected",
    timestamp := 777 }

/-- Looking a key up right after writing it returns the written value. -/
theorem lookupA_insertA {α : Type} (l : List (String × α)) (s : String) (v : α) :
    lookupA (insertA l s v) s = some v := by
  induction l with
  | nil => simp [insertA, lookupA]
  | cons hd tl ih =>
      obtain ⟨k, w⟩ := hd
      by_cases hk : k = s
      · simp [insertA, hk, lookupA]
      · simp [insertA, hk, lookupA, ih]

/-- The crossover sign of lines 97-99 is +1 exactly on strict dominance of
the short EMA, -1 on strict dominance of the long EMA, and 0 exactly on
equality. -/
theorem crossoverSign_spec (a b : ℚ) :
    (crossoverSign a b = 1 ↔ b < a) ∧ (crossoverSign a b = -1 ↔ a < b) ∧
      (crossoverSign a b = 0 ↔ a = b) := by
  rcases lt_trichotomy a b with h | h | h
  · simp [crossoverSign, h, not_lt.mpr h.le, h.ne, h.ne.symm]
  · simp [crossoverSign, h, lt_irrefl]
  · simp [crossoverSign, h, not_lt.mpr h.le, h.ne, h.ne.symm]

/-- C1 (counterexample): a window of 30 retained ticks with a duplicated
timestamp has a deduplicated count of 29 < 30, yet `calculate_indicators`
does not report insufficient data: the raw-count guard of line 49 fires
before deduplication, the computation proceeds, and `dropna` empties the
29-row frame, so an empty frame object (not `None`) is returned. -/
theorem c1_counterexample :
    (dedupByTs (sortTicks wC1)).length < 30 ∧
      calculate_indicators stC1 "X" = CalcResult.frame [] := by decide

/-- C1 (amended): `calculate_indicators` returns `None` exactly when the
symbol is unknown or the raw retained tick count, before deduplication, is
below 30; when warm-up dropping empties the frame an empty frame is returned,
which `detect_trend` then treats as insufficient through its row-count gate,
returning no signal and leaving the state unchanged. -/
theorem c1_insufficient_iff (st : PState) (s : String) :
    (calculate_indicators st s = CalcResult.noData ↔
      lookupA st.symbol_data s = none ∨ ((lookupA st.symbol_data s).getD []).length < 30) ∧
    (∀ now : Int, calculate_indicators st s = CalcResult.frame [] →
      detect_trend st s now = Except.ok (none, st)) := by
  constructor
  · unfold calculate_indicators
    cases h : lookupA st.symbol_data s with
    | none => simp
    | some w =>
        simp only [Option.getD_some, h]
        by_cases hw : w.length < 30
        · simp [hw]
        · simp only [if_neg hw]
          constructor
          · intro hcon
            split at hcon <;> simp_all
          · intro hcon
            rcases hcon with hcon | hcon
            · exact absurd hcon (by simp)
            · exact absurd hcon hw
  · intro now hf
    unfold detect_trend
    rw [hf]
    simp [TIME_INTERVAL_MINUTES]

/-- C1 (witness): on the duplicated-timestamp window the frame is empty and
`detect_trend` returns no signal with the state untouched. -/
theorem c1_witness : detect_trend stC1 "X" 123 = Except.ok (none, stC1) :=
  (c1_insufficient_iff stC1 "X").2 123 (by decide)

/-- C2: on a window whose frame ends with crossover signs +1 then -1 (a
genuine bearish crossover a LONG position should exit on), and on which the
other three exit disjuncts are false, the implementation raises instead of
emitting the exit signal: line 236 applies `.shift(1)` to the scalar latest
crossover value, so reaching the crossover check with the latest sign -1 is
an `AttributeError`, never a two-row comparison. -/
theorem c2_exit_crossover_scalar_errors :
    detect_exit_signal stC2 posC2 1000000000 = Except.error () ∧
      (frameRowsOf stC2 "X").length = 5 ∧
      ((frameRowsOf stC2 "X").getLastD default).ema_crossover = -1 ∧
      (((frameRowsOf stC2 "X").dropLast).getLastD default).ema_crossover = 1 := by decide

/-- C3 (counterexample): on `wC3` the frame has exactly one row, that row has
`ema_50 = ema_200`, and its crossover field is 0, not +1: equality does not
produce +1, refuting the claim that +1 appears whenever
`ema_50 >= ema_200`. -/
theorem c3_counterexample :
    (frameRowsOf stC3 "X").length = 1 ∧
      ((frameRowsOf stC3 "X").getLastD default).ema_50 =
        ((frameRowsOf stC3 "X").getLastD default).ema_200 ∧
      ((frameRowsOf stC3 "X").getLastD default).ema_crossover = 0 := by decide

/-- C3 (amended): in every row of every indicator frame the crossover field
is +1 exactly when `ema_50 > ema_200` strictly, -1 exactly when
`ema_50 < ema_200`, and 0 exactly when the two EMAs are equal: 0 is the
untouched initial default, and it survives on every row where the comparison
is an exact tie, not only before a comparison is made. -/
theorem c3_crossover_sign (u : List Tick) (r : Row) (hr : r ∈ frameOf u) :
    (r.ema_crossover = 1 ↔ r.ema_200 < r.ema_50) ∧
      (r.ema_crossover = -1 ↔ r.ema_50 < r.ema_200) ∧
      (r.ema_crossover = 0 ↔ r.ema_50 = r.ema_200) := by
  unfold frameOf at hr
  rw [List.mem_filterMap] at hr
  obtain ⟨i, _, hi⟩ := hr
  unfold toRow at hi
  split at hi
  · rw [Option.some.injEq] at hi
    subst hi
    exact crossoverSign_spec _ _
  · exact absurd hi (by simp)

/-- C3 (witness): the surviving row of `wC3` has equal EMAs, and the amended
characterisation forces its crossover field to be 0. -/
theorem c3_witness : ((frameRowsOf stC3 "X").getLastD default).ema_crossover = 0 :=
  (c3_crossover_sign (dedupByTs (sortTicks wC3))
      ((frameRowsOf stC3 "X").getLastD default) (by decide)).2.2.mpr (by decide)

/-- C4 (counterexample): two `detect_trend` calls one second apart, the first
on a 20-tick window (insufficient data, so it returns no signal without
touching `last_processed`), sixteen ticks appended in between; the second
call, although separated from the first by far less than the configured
interval, passes the throttle gate (the recorded `last_processed` is still
the initial 0), evaluates the predicates and overwrites `last_processed`,
contradicting the claim that any call within the interval of the previous
call returns no signal without evaluating. -/
theorem c4_counterexample :
    t2C4 - t1C4 < (TIME_INTERVAL_MINUTES : Int) * 60 * 1000 ∧
      detect_trend stC4a "X" t1C4 = Except.ok (none, stC4a) ∧
      detect_trend stC4b "X" t2C4 =
        Except.ok (none,
          { stC4b with last_processed := insertA stC4b.last_processed "X" t2C4 }) ∧
      lookupA (insertA stC4b.last_processed "X" t2C4) "X" ≠
        lookupA stC4b.last_processed "X" := by decide

/-- C4 (amended): a `detect_trend` call made within the configured interval
of the symbol's recorded `last_processed` time (the time of the most recent
call that reached the evaluation stage) returns no signal with the state
unchanged, provided the indicator computation does not raise; and every call
that passes both the data gate and the throttle gate records the current time
in `last_processed`, whether or not a signal fires. -/
theorem c4_throttle (st : PState) (s : String) (now : Int) :
    (calculate_indicators st s ≠ CalcResult.libErr →
      now - (lookupA st.last_processed s).getD 0 < (TIME_INTERVAL_MINUTES : Int) * 60 * 1000 →
      detect_trend st s now = Except.ok (none, st)) ∧
    (∀ rows r st2, calculate_indicators st s = CalcResult.frame rows →
      TIME_INTERVAL_MINUTES ≤ rows.length →
      (TIME_INTERVAL_MINUTES : Int) * 60 * 1000 ≤ now - (lookupA st.last_processed s).getD 0 →
      detect_trend st s now = Except.ok (r, st2) →
      lookupA st2.last_processed s = some now) := by
  constructor
  · intro hne hlt
    unfold detect_trend
    cases h : calculate_indicators st s with
    | libErr => exact absurd h hne
    | noData => rfl
    | frame rows =>
        by_cases hlen : rows.length < TIME_INTERVAL_MINUTES
        · simp [hlen]
        · simp only [if_neg hlen, if_pos hlt]
  · intro rows r st2 hc hlen hge hdet
    unfold detect_trend at hdet
    rw [hc] at hdet
    dsimp only at hdet
    rw [if_neg (show ¬rows.length < TIME_INTERVAL_MINUTES by omega)] at hdet
    rw [if_neg (show ¬(now - (lookupA st.last_processed s).getD 0 <
      (TIME_INTERVAL_MINUTES : Int) * 60 * 1000) by omega)] at hdet
    split at hdet
    · rw [Except.ok.injEq, Prod.mk.injEq] at hdet
      rw [← hdet.2]
      exact lookupA_insertA _ _ _
    · split at hdet
      · rw [Except.ok.injEq, Prod.mk.injEq] at hdet
        rw [← hdet.2]
        exact lookupA_insertA _ _ _
      · rw [Except.ok.injEq, Prod.mk.injEq] at hdet
        rw [← hdet.2]
        exact lookupA_insertA _ _ _

/-- C4 (witness): with the 36-tick state, a call at time 5 (within the
interval of the recorded time 0) is throttled with the state unchanged, and
the gate-passing call at `t2C4` records `t2C4` in `last_processed`. -/
theorem c4_witness :
    detect_trend stC4b "X" 5 = Except.ok (none, stC4b) ∧
      lookupA ({ stC4b with
        last_processed := insertA stC4b.last_processed "X" t2C4 }).last_processed "X" =
        some t2C4 :=
  ⟨(c4_throttle stC4b "X" 5).1 (by decide) (by decide),
    (c4_throttle stC4b "X" t2C4).2 (frameRowsOf stC4b "X") none
      { stC4b with last_processed := insertA stC4b.last_processed "X" t2C4 }
      (by decide) (by decide) (by decide) (by decide)⟩

/-- C5: on no indicator row can the LONG and SHORT entry predicate sets of
lines 145-164 hold together: the price-change conjuncts would need the same
value above +3 and below -3. -/
theorem c5_entry_rules_exclusive (r : Row) :
    pump_signal r = false ∨ dump_signal r = false := by
  by_cases h : PRICE_CHANGE_THRESHOLD < r.price_pct_change
  · right
    have hn : ¬(r.price_pct_change < -PRICE_CHANGE_THRESHOLD) := by
      unfold PRICE_CHANGE_THRESHOLD at *
      linarith
    unfold dump_signal
    simp [hn]
  · left
    unfold pump_signal
    simp [h]

/-- C6: a position carrying an entry timestamp less than 15 minutes before
the current time makes `detect_exit_signal` return no signal unconditionally,
before any indicator is computed. -/
theorem c6_min_holding (st : PState) (pos : Position) (now t : Int)
    (h1 : pos.timestamp = some t) (h2 : now - t < 15 * 60 * 1000) :
    detect_exit_signal st pos now = Except.ok none := by
  unfold detect_exit_signal
  rw [h1]
  dsimp only
  rw [if_pos h2]

/-- C6 (witness): a position entered exactly now produces no exit signal even
on an empty processor, where the indicator content is irrelevant. -/
theorem c6_witness :
    detect_exit_signal stEmpty
      { symbol := "X", trend := "LONG", entry_price := 80, timestamp := some 500 } 500 =
      Except.ok none :=
  c6_min_holding stEmpty _ 500 500 rfl (by decide)

/-- C7: whenever `detect_exit_signal` emits a signal, its `profit_pct` is the
direction-aware relative move of the exit price (the latest frame price,
stored in `exit_price`) against the entry price: LONG positions get
`(exit - entry) / entry * 100`, SHORT positions the negation. -/
theorem c7_profit_formula (st : PState) (pos : Position) (now : Int) (sig : ExitSig)
    (h : detect_exit_signal st pos now = Except.ok (some sig)) :
    (pos.trend = "LONG" →
      sig.profit_pct = (sig.exit_price - pos.entry_price) / pos.entry_price * 100) ∧
    (pos.trend = "SHORT" →
      sig.profit_pct = (pos.entry_price - sig.exit_price) / pos.entry_price * 100) := by
  have hbody : ∀ hb : exitEval st pos now = Except.ok (some sig),
      (pos.trend = "LONG" →
        sig.profit_pct = (sig.exit_price - pos.entry_price) / pos.entry_price * 100) ∧
      (pos.trend = "SHORT" →
        sig.profit_pct = (pos.entry_price - sig.exit_price) / pos.entry_price * 100) := by
    intro hb
    unfold exitEval at hb
    split at hb
    · exact absurd hb (by simp)
    · exact absurd hb (by simp)
    · split at hb
      · exact absurd hb (by simp)
      · split at hb
        · rename_i hL
          dsimp only at hb
          constructor
          · intro _
            split at hb
            · rw [Except.ok.injEq, Option.some.injEq] at hb
              subst hb
              rfl
            · split at hb
              · exact absurd hb (by simp)
              · exact absurd hb (by simp)
          · intro hS
            rw [hL] at hS
            exact absurd hS (by decide)
        · split at hb
          · rename_i hnL hS
            dsimp only at hb
            constructor
            · intro hL2
              rw [hS] at hL2
              exact absurd hL2 (by decide)
            · intro _
              split at hb
              · rw [Except.ok.injEq, Option.some.injEq] at hb
                subst hb
                rfl
              · split at hb
                · exact absurd hb (by simp)
                · exact absurd hb (by simp)
          · exact absurd hb (by simp)
  unfold detect_exit_signal at h
  split at h
  · split at h
    · exact absurd h (by simp)
    · exact hbody h
  · exact hbody h

/-- C7 (witness): the crash window emits an exit at price 60 for a LONG
position entered at 80, and the emitted `profit_pct` of -25 is exactly
`(60 - 80) / 80 * 100`. -/
theorem c7_witness :
    detect_exit_signal stC7 posC7 nowC7 = Except.ok (some sigC7) ∧
      sigC7.profit_pct = (sigC7.exit_price - posC7.entry_price) / posC7.entry_price * 100 :=
  ⟨by decide, (c7_profit_formula stC7 posC7 nowC7 sigC7 (by decide)).1 rfl⟩

/-- C8: after `update_data`, every tick retained in the appended symbol's
window is strictly newer than three hours before the append time; and
`detect_trend`, the only other state-modifying operation, never changes
`symbol_data` (it only rewrites `last_processed`). -/
theorem c8_retention (st : PState) (tk : Tick) (now : Int) (d : Tick)
    (hd : d ∈ (lookupA (update_data st tk now).symbol_data tk.symbol).getD [])
    (s : String) (n : Int) (r : Option Signal) (st2 : PState)
    (h2 : detect_trend st s n = Except.ok (r, st2)) :
    now - 3 * 60 * 60 * 1000 < d.timestamp ∧ st2.symbol_data = st.symbol_data := by
  constructor
  · unfold update_data at hd
    rw [lookupA_insertA] at hd
    simp only [Option.getD_some] at hd
    have hmem := (List.mem_filter.mp hd).2
    exact of_decide_eq_true hmem
  · unfold detect_trend at h2
    cases hc : calculate_indicators st s with
    | libErr => rw [hc] at h2; exact absurd h2 (by simp)
    | noData =>
        rw [hc] at h2
        rw [Except.ok.injEq, Prod.mk.injEq] at h2
        rw [← h2.2]
    | frame rows =>
        rw [hc] at h2
        dsimp only at h2
        split at h2
        · rw [Except.ok.injEq, Prod.mk.injEq] at h2
          rw [← h2.2]
        · split at h2
          · rw [Except.ok.injEq, Prod.mk.injEq] at h2
            rw [← h2.2]
          · split at h2
            · rw [Except.ok.injEq, Prod.mk.injEq] at h2
              rw [← h2.2]
            · split at h2
              · rw [Except.ok.injEq, Prod.mk.injEq] at h2
                rw [← h2.2]
              · rw [Except.ok.injEq, Prod.mk.injEq] at h2
                rw [← h2.2]

/-- C8 (witness): appending a tick at time 0 to an empty processor keeps that
tick, whose timestamp is inside the horizon, and a `detect_trend` call on the
empty state leaves `symbol_data` as it was. -/
theorem c8_witness :
    (0 : Int) - 3 * 60 * 60 * 1000 < (tickAt 1 0).timestamp ∧
      stEmpty.symbol_data = stEmpty.symbol_data :=
  c8_retention stEmpty (tickAt 1 0) 0 (tickAt 1 0) (by decide) "X" 5 none stEmpty (by decide)

/-- C9: `calculate_indicators` reads nothing but the symbol's own window: two
processor states agreeing on that window (whatever their other symbols or
their throttle clocks hold) produce identical results, so the computation is
deterministic in the window contents and the fixed period constants. -/
theorem c9_window_determines (st1 st2 : PState) (s : String)
    (h : lookupA st1.symbol_data s = lookupA st2.symbol_data s) :
    calculate_indicators st1 s = calculate_indicators st2 s := by
  unfold calculate_indicators
  rw [h]

/-- C9 (witness): adding an unrelated symbol and changing the throttle clock
leaves the result of `calculate_indicators` unchanged. -/
theorem c9_witness :
    calculate_indicators { symbol_data := [("X", wBase 5)], last_processed := [("X", 0)] } "X" =
      calculate_indicators
        { symbol_data := [("Y", wBase 3), ("X", wBase 5)], last_processed := [("X", 42)] } "X" :=
  c9_window_determines _ _ "X" (by decide)

/-- C10: a position record without a `'timestamp'` key skips the
minimum-holding-period gate entirely: `detect_exit_signal` goes straight to
the indicator evaluation of lines 215-268. -/
theorem c10_gate_skipped (st : PState) (pos : Position) (now : Int)
    (h : pos.timestamp = none) :
    detect_exit_signal st pos now = exitEval st pos now := by
  unfold detect_exit_signal
  rw [h]

/-- C10 (witness): on the crash window a timestamp-less position is exited
immediately, at an arbitrary evaluation time, with the same reversal row that
a held position would need 15 minutes to act on. -/
theorem c10_witness :
    detect_exit_signal stC7 pos10 777 = exitEval stC7 pos10 777 ∧
      detect_exit_signal stC7 pos10 777 = Except.ok (some sig10) :=
  ⟨c10_gate_skipped stC7 pos10 777 rfl, by decide⟩

end Binan
